import Mathlib

/-!
Verification of the ADuC70xx serial uploader (src/aduc_upload.py).

The development shallowly embeds the uploader engine of the repository:
the packet framer, checksum, address remapping, verify bit transform,
erase/write/verify/run command layer with its retry policy, and the
upload orchestration with its status callbacks.

Modelling conventions:
* Python ints are Nat (addresses, bytes) or Int (signed arguments such as
  the numBytes argument of erase); byte-level truncation is explicit.
* The serial device is a function from the index of the command frame
  sent so far to its one-byte reply, abstracted to Bool
  (true = ACK 0x06, false = NAK 0x07).  The handshake probe reply is
  abstracted to its first byte.
* The connection object is a state record St: the transport flag
  (_connection, here connected), the handshake flag
  (_connectionEstablished), the list of command frames transmitted, the
  list of statuses delivered to statusCB, and the number of percentCB
  invocations (their float values are never inspected by any claim).
* Python exceptions (AducException, packet-size overflow) are Option:
  none is a raised exception.
* while loops run on an explicit fuel that is an upper bound for the
  number of iterations (each iteration consumes at least one data byte,
  so the data length is enough fuel); the exhausted-fuel case is
  unreachable under that bound.
-/

namespace Aduc

/-- Status of a device connection (class AducStatus of the source). -/
inductive AducStatus
  | CONNECTING
  | PORT_IN_USE
  | WAITING_FOR_DEVICE
  | NOT_IN_FLASH_MODE
  | DEVICE_FOUND
  | ERASING
  | ERASE_FAILED
  | ERASE_SUCCEEDED
  | WRITING
  | WRITE_FAILED
  | WRITE_SUCCEEDED
  | VERIFYING
  | VERIFY_FAILED
  | VERIFY_SUCCEEDED
  | RUNNING
  | RUN_FAILED
  | RUN_SUCCEEDED
  | RESETTING
  | RESET_FAILED
  | RESET_SUCCEEDED
  | POST_STEP
  | POST_STEP_SUCCEEDED
  | POST_STEP_FAILED
  | DONE
  deriving DecidableEq

/-- Observable state of an AducConnection: transport flag (_connection),
handshake flag (_connectionEstablished), command frames written to the
serial port, statuses delivered to statusCB, number of percentCB calls. -/
structure St where
  connected : Bool
  connectionEstablished : Bool
  frames : List (List ℕ)
  statuses : List AducStatus
  percentEvents : ℕ
  deriving DecidableEq

/-- A fresh AducConnection: no port open, no handshake, nothing sent. -/
def St.init : St := ⟨false, false, [], [], 0⟩

/-- statusCB delivery. -/
def emitStatus (st : AducStatus) (s : St) : St :=
  { s with statuses := s.statuses ++ [st] }

/-- percentCB delivery (the float argument is not tracked). -/
def emitPercent (s : St) : St :=
  { s with percentEvents := s.percentEvents + 1 }

/-- connect: opens the port if needed, reporting CONNECTING. -/
def connect (s : St) : St :=
  if s.connected then s
  else { (emitPercent (emitStatus AducStatus.CONNECTING s)) with connected := true }

/-- disconnect: close the serial port. -/
def disconnect (s : St) : St := { s with connected := false }

/-- _checksum of the source: bytes([0xFF & (0 - sum(data))]), i.e. the
low byte of the two's-complement negation of the byte sum. -/
def checksum (data : List ℕ) : ℕ :=
  ((0 - (data.sum : ℤ)) % 256).toNat

/-- _remapAddress of the source: if address >= 0x0080000 subtract
0x0080000 (the source's literal has six zeros, not the seven of the
0x00800000 mirror base its comment describes). -/
def remapAddress (address : ℕ) : ℕ :=
  if address ≥ 0x0080000 then address - 0x0080000 else address

/-- _verifyShift of the source: each byte becomes 0xFF & (b << 3 | b >> 5). -/
def verifyShift (data : List ℕ) : List ℕ :=
  data.map fun b => Nat.land 0xFF (Nat.lor (Nat.shiftLeft b 3) (Nat.shiftRight b 5))

/-- int.to_bytes(length=4, byteorder=big) for a value below 2^32. -/
def toBytesBE4 (n : ℕ) : List ℕ :=
  [n / 2 ^ 24 % 256, n / 2 ^ 16 % 256, n / 2 ^ 8 % 256, n % 256]

/-- The byte sequence _sendPacket writes for one command frame:
magic 0x07 0x0E, then sendbuf = length, command, remapped big-endian
address, data, then the checksum of sendbuf. -/
def frameBytes (command address : ℕ) (data : List ℕ) : List ℕ :=
  let address := remapAddress address
  let packet_len := data.length + 5
  let sendbuf := packet_len :: command :: (toBytesBE4 address ++ data)
  0x07 :: 0x0E :: (sendbuf ++ [checksum sendbuf])

/-- _sendPacket: raises (none) when the length byte would exceed 255;
otherwise connects if needed, transmits the frame, and returns the
device's ACK/NAK for it. -/
def sendPacket (dev : ℕ → Bool) (command address : ℕ) (data : List ℕ) (s : St) :
    Option (Bool × St) :=
  if data.length + 5 > 255 then none
  else
    let s := connect s
    some (dev s.frames.length,
      { s with frames := s.frames ++ [frameBytes command address data] })

/-- The identical retry loops of _writePacket, _verifyPacket and
_runPacket: ret=False; for _ in range(tries): ret=sendPacket; if ret: break. -/
def sendRetry (tries : ℕ) (dev : ℕ → Bool) (command address : ℕ) (data : List ℕ)
    (s : St) : Option (Bool × St) :=
  match tries with
  | 0 => some (false, s)
  | n + 1 =>
    match sendPacket dev command address data s with
    | none => none
    | some (ok, s) => if ok then some (true, s) else sendRetry n dev command address data s

/-- _writePacket: a W command with up to tries attempts. -/
def writePacket (tries : ℕ) (dev : ℕ → Bool) (address : ℕ) (data : List ℕ) (s : St) :
    Option (Bool × St) :=
  sendRetry tries dev 0x57 address data s

/-- _verifyPacket: a V command with up to tries attempts. -/
def verifyPacket (tries : ℕ) (dev : ℕ → Bool) (address : ℕ) (data : List ℕ) (s : St) :
    Option (Bool × St) :=
  sendRetry tries dev 0x56 address data s

/-- _runPacket: an R command with empty data, up to tries attempts. -/
def runPacket (tries : ℕ) (dev : ℕ → Bool) (address : ℕ) (s : St) :
    Option (Bool × St) :=
  sendRetry tries dev 0x52 address [] s

/-- _erasePacket: a single-attempt E command whose one-byte payload is the
page count; numPages outside 1..124 raises, except numPages = 0 which
returns True without touching the device. -/
def erasePacket (dev : ℕ → Bool) (address numPages : ℕ) (s : St) :
    Option (Bool × St) :=
  if numPages < 1 ∨ numPages > 124 then
    if numPages = 0 then some (true, s)
    else none
  else sendPacket dev 0x45 address [numPages] s

/-- math.ceil(a / b) for naturals (b > 0). -/
def ceilDiv (a b : ℕ) : ℕ := (a + b - 1) / b

/-- self.pageSize, fixed to 512 in AducConnection.__init__. -/
def pageSize : ℕ := 512

/-- self.bytesPerWritePacket, fixed to 16 in AducConnection.__init__. -/
def bytesPerWritePacket : ℕ := 16

/-- erase: returns True at once for numBytes < 1, otherwise reports
ERASING, erases ceil(numBytes/pageSize) pages and reports the outcome. -/
def erase (dev : ℕ → Bool) (address : ℕ) (numBytes : ℤ) (s : St) :
    Option (Bool × St) :=
  if numBytes < 1 then some (true, s)
  else
    let s := emitStatus AducStatus.ERASING s
    match erasePacket dev address (ceilDiv numBytes.toNat pageSize) s with
    | none => none
    | some (ret, s) =>
      if ret then some (true, emitPercent (emitStatus AducStatus.ERASE_SUCCEEDED s))
      else some (false, emitStatus AducStatus.ERASE_FAILED s)

/-- massErase: reports ERASING and delegates to _erasePacket(0, 0). -/
def massErase (dev : ℕ → Bool) (s : St) : Option (Bool × St) :=
  let s := emitStatus AducStatus.ERASING s
  match erasePacket dev 0 0 s with
  | none => none
  | some (ret, s) =>
    if ret then some (true, emitPercent (emitStatus AducStatus.ERASE_SUCCEEDED s))
    else some (false, emitStatus AducStatus.ERASE_FAILED s)

/-- waitForDevice: returns at once when already established; otherwise
connects, probes with backspaces until the device answers, reporting
NOT_IN_FLASH_MODE when the reply starts with 0x07 or 0x80, then reports
DEVICE_FOUND.  firstByte is the first byte of the device's (non-empty)
reply; the probe bytes are not command frames and are not recorded. -/
def waitForDevice (firstByte : ℕ) (s : St) : St :=
  if s.connectionEstablished then s
  else
    let s := connect s
    let s := emitPercent (emitStatus AducStatus.WAITING_FOR_DEVICE s)
    let s := if firstByte = 0x07 ∨ firstByte = 0x80
      then emitStatus AducStatus.NOT_IN_FLASH_MODE s else s
    let s := emitStatus AducStatus.DEVICE_FOUND s
    { s with connectionEstablished := true }

/-- Pad a write chunk with 0x00 bytes up to n bytes (the inner while of
AducConnection.write: while len(chunk) < bytesPerWritePacket: chunk.append(0)). -/
def padTo (n : ℕ) (l : List ℕ) : List ℕ :=
  l ++ List.replicate (n - l.length) 0

/-- The while loop of AducConnection.write over the not-yet-written
suffix of the data: each iteration takes numWritten = min(remaining, 16)
bytes, pads the chunk to 16 bytes, sends it as a W packet (with
retries), reports progress, and advances the address by numWritten.
fuel bounds the iteration count; every iteration consumes at least one
byte, so fuel = data length never exhausts (the none case). -/
def writeChunksAux (tries : ℕ) (dev : ℕ → Bool) :
    ℕ → ℕ → List ℕ → St → Option (Bool × St)
  | _, _, [], s => some (true, s)
  | 0, _, _ :: _, _ => none
  | fuel + 1, address, b :: rest, s =>
    let numWritten := min (b :: rest).length bytesPerWritePacket
    let chunk := padTo bytesPerWritePacket ((b :: rest).take numWritten)
    match writePacket tries dev address chunk s with
    | none => none
    | some (ok, s) =>
      if ok then
        writeChunksAux tries dev fuel (address + numWritten)
          ((b :: rest).drop numWritten) (emitPercent s)
      else some (false, emitStatus AducStatus.WRITE_FAILED s)

/-- The while loop of AducConnection.verify, identical to the write loop
except that the command is V and short final chunks are not padded. -/
def verifyChunksAux (tries : ℕ) (dev : ℕ → Bool) :
    ℕ → ℕ → List ℕ → St → Option (Bool × St)
  | _, _, [], s => some (true, s)
  | 0, _, _ :: _, _ => none
  | fuel + 1, address, b :: rest, s =>
    let numVerified := min (b :: rest).length bytesPerWritePacket
    let chunk := (b :: rest).take numVerified
    match verifyPacket tries dev address chunk s with
    | none => none
    | some (ok, s) =>
      if ok then
        verifyChunksAux tries dev fuel (address + numVerified)
          ((b :: rest).drop numVerified) (emitPercent s)
      else some (false, emitStatus AducStatus.VERIFY_FAILED s)

/-- run: report RUNNING, issue an R packet to address 0, report outcome. -/
def run (tries : ℕ) (dev : ℕ → Bool) (s : St) : Option (Bool × St) :=
  let s := emitPercent (emitStatus AducStatus.RUNNING s)
  match runPacket tries dev 0 s with
  | none => none
  | some (ret, s) =>
    if ret then some (true, emitPercent (emitStatus AducStatus.RUN_SUCCEEDED s))
    else some (false, emitStatus AducStatus.RUN_FAILED s)

/-- reset: report RESETTING, issue an R packet to address 1, report outcome. -/
def reset (tries : ℕ) (dev : ℕ → Bool) (s : St) : Option (Bool × St) :=
  let s := emitPercent (emitStatus AducStatus.RESETTING s)
  match runPacket tries dev 1 s with
  | none => none
  | some (ret, s) =>
    if ret then some (true, emitPercent (emitStatus AducStatus.RESET_SUCCEEDED s))
    else some (false, emitStatus AducStatus.RESET_FAILED s)

/-- verify: rotate-shift the data, handshake if this call opened the
session, report VERIFYING, send the shifted bytes in 16-byte chunks,
and on success close a self-opened session and report VERIFY_SUCCEEDED. -/
def verify (tries : ℕ) (dev : ℕ → Bool) (firstByte address : ℕ) (data : List ℕ)
    (s : St) : Option (Bool × St) :=
  let data := verifyShift data
  let weConnected := !s.connectionEstablished
  let s := if weConnected then waitForDevice firstByte s else s
  let s := emitPercent (emitStatus AducStatus.VERIFYING s)
  match verifyChunksAux tries dev data.length address data s with
  | none => none
  | some (ret, s) =>
    if ret then
      let s := if weConnected
        then { (disconnect s) with connectionEstablished := false } else s
      some (true, emitPercent (emitStatus AducStatus.VERIFY_SUCCEEDED s))
    else some (false, s)

/-- write: raises on empty data; handshakes if this call opened the
session; erases unless noErase (discarding the erase result, as the
source does); reports WRITING; sends the data in padded 16-byte W
packets; on success reports WRITE_SUCCEEDED, then optionally verifies,
then optionally runs or resets (discarding that result), disconnects,
and forgets the handshake if this call created it. -/
def write (tries : ℕ) (dev : ℕ → Bool) (firstByte address : ℕ) (data : List ℕ)
    (andVerify andRun andReset noErase : Bool) (s : St) : Option (Bool × St) :=
  if data.length = 0 then none
  else
    let startAddress := address
    let weConnected := !s.connectionEstablished
    let s := if weConnected then waitForDevice firstByte s else s
    match (if noErase then some (true, s)
           else erase dev address (data.length : ℤ) s) with
    | none => none
    | some (_, s) =>
      let s := emitPercent (emitStatus AducStatus.WRITING s)
      match writeChunksAux tries dev data.length address data s with
      | none => none
      | some (ret, s) =>
        if ret then
          let s := emitPercent (emitStatus AducStatus.WRITE_SUCCEEDED s)
          match (if andVerify then verify tries dev firstByte startAddress data s
                 else some (true, s)) with
          | none => none
          | some (ret, s) =>
            match (if andRun then run tries dev s
                   else if andReset then reset tries dev s
                   else some (true, s)) with
            | none => none
            | some (_, s) =>
              let s := disconnect s
              let s := if weConnected
                then { s with connectionEstablished := false } else s
              some (ret, s)
        else some (false, s)

/-- The first segment loop of uploadIhex: erase each segment, discarding
the boolean result (the source ignores it). -/
def eraseSegments (dev : ℕ → Bool) : List (ℕ × List ℕ) → St → Option St
  | [], s => some s
  | (start, data) :: rest, s =>
    match erase dev start (data.length : ℤ) s with
    | none => none
    | some (_, s) => eraseSegments dev rest s

/-- The second segment loop of uploadIhex: write each segment without
re-erasing, stopping at the first failure. -/
def writeSegments (tries : ℕ) (dev : ℕ → Bool) (firstByte : ℕ) (andVerify : Bool) :
    List (ℕ × List ℕ) → St → Option (Bool × St)
  | [], s => some (true, s)
  | (start, data) :: rest, s =>
    match write tries dev firstByte start data andVerify false false true s with
    | none => none
    | some (ret, s) =>
      if ret then writeSegments tries dev firstByte andVerify rest s
      else some (false, s)

/-- uploadIhex: handshake, erase every segment, write (and optionally
verify) every segment, then optionally run or reset and drop the
handshake flag, then execute the optional postRun shell command.
postRun is modelled by the exit code of that command; the source
computes ret = (returncode != 0) and reports POST_STEP_SUCCEEDED when
ret is true.  Note that no DONE status is ever reported. -/
def uploadIhex (tries : ℕ) (dev : ℕ → Bool) (firstByte : ℕ)
    (segments : List (ℕ × List ℕ)) (andVerify andRun andReset : Bool)
    (postRun : Option ℤ) (s : St) : Option (Bool × St) :=
  let s := waitForDevice firstByte s
  match eraseSegments dev segments s with
  | none => none
  | some s =>
    match writeSegments tries dev firstByte andVerify segments s with
    | none => none
    | some (ret, s) =>
      match (if ret then
               match (if andRun then run tries dev s
                      else if andReset then reset tries dev s
                      else some (true, s)) with
               | none => none
               | some (ret2, s2) =>
                 some (ret2, { s2 with connectionEstablished := false })
             else some (ret, s)) with
      | none => none
      | some (ret, s) =>
        if ret then
          match postRun with
          | none => some (ret, s)
          | some returncode =>
            let s := emitPercent (emitStatus AducStatus.POST_STEP s)
            if returncode ≠ 0 then
              some (true, emitPercent (emitStatus AducStatus.POST_STEP_SUCCEEDED s))
            else some (false, emitStatus AducStatus.POST_STEP_FAILED s)
        else some (ret, s)

/-- Specification-side description of the frames the write loop emits:
one W frame per chunk, mirroring the chunking, padding and address
arithmetic of writeChunksAux. -/
def chunkFrames : ℕ → ℕ → List ℕ → List (List ℕ)
  | _, _, [] => []
  | 0, _, _ :: _ => []
  | fuel + 1, address, b :: rest =>
    let numWritten := min (b :: rest).length bytesPerWritePacket
    frameBytes 0x57 address (padTo bytesPerWritePacket ((b :: rest).take numWritten)) ::
      chunkFrames fuel (address + numWritten) ((b :: rest).drop numWritten)

/-! ### Helper lemmas -/

theorem connect_frames (s : St) : (connect s).frames = s.frames := by
  unfold connect; split <;> rfl

theorem connect_connected (s : St) : (connect s).connected = true := by
  unfold connect; split
  · assumption
  · rfl

theorem connect_of_connected (s : St) (h : s.connected = true) : connect s = s := by
  unfold connect; rw [if_pos h]

theorem checksum_eq_mod (b : List ℕ) : checksum b = (256 - b.sum % 256) % 256 := by
  unfold checksum; omega

theorem sendPacket_spec (dev : ℕ → Bool) (command address : ℕ) (data : List ℕ)
    (hd : data.length ≤ 250) (s : St) :
    sendPacket dev command address data s =
      some (dev s.frames.length,
        { connect s with frames := s.frames ++ [frameBytes command address data] }) := by
  unfold sendPacket
  rw [if_neg (by omega)]
  show some (dev (connect s).frames.length,
    { connect s with
        frames := (connect s).frames ++ [frameBytes command address data] }) = _
  rw [connect_frames]

theorem connect_established (s : St) :
    (connect s).connectionEstablished = s.connectionEstablished := by
  unfold connect; split <;> rfl

theorem sendRetry_allNak (dev : ℕ → Bool) (hdev : ∀ k, dev k = false)
    (command address : ℕ) (data : List ℕ) (hd : data.length ≤ 250) :
    ∀ (tries : ℕ) (s : St), ∃ s', sendRetry tries dev command address data s =
        some (false, s') ∧ s'.frames.length = s.frames.length + tries := by
  intro tries
  induction tries with
  | zero => exact fun s => ⟨s, rfl, rfl⟩
  | succ n ih =>
    intro s
    obtain ⟨s', h1, h2⟩ := ih
      { connect s with frames := s.frames ++ [frameBytes command address data] }
    refine ⟨s', ?_, ?_⟩
    · unfold sendRetry
      rw [sendPacket_spec dev command address data hd s, hdev]
      simpa using h1
    · rw [h2]
      simp
      omega


theorem padTo_length (n : ℕ) (l : List ℕ) (h : l.length ≤ n) :
    (padTo n l).length = n := by
  simp [padTo]
  omega

theorem sendRetry_ack (tries : ℕ) (ht : 1 ≤ tries) (dev : ℕ → Bool)
    (command address : ℕ) (data : List ℕ) (hd : data.length ≤ 250) (s : St)
    (hack : dev s.frames.length = true) :
    sendRetry tries dev command address data s =
      some (true, { connect s with
        frames := s.frames ++ [frameBytes command address data] }) := by
  cases tries with
  | zero => omega
  | succ n =>
    unfold sendRetry
    rw [sendPacket_spec dev command address data hd s, hack]
    rfl

theorem writeChunksAux_ack (tries : ℕ) (ht : 1 ≤ tries) (dev : ℕ → Bool)
    (hdev : ∀ k, dev k = true) :
    ∀ (fuel : ℕ) (rest : List ℕ) (address : ℕ) (s : St),
      rest.length ≤ fuel → s.connected = true →
      ∃ s', writeChunksAux tries dev fuel address rest s = some (true, s') ∧
        s'.frames = s.frames ++ chunkFrames fuel address rest ∧
        s'.connected = true ∧
        s'.statuses = s.statuses ∧
        s'.connectionEstablished = s.connectionEstablished := by
  intro fuel
  induction fuel with
  | zero =>
    intro rest address s hle hc
    match rest, hle with
    | [], _ => exact ⟨s, rfl, by simp [chunkFrames], hc, rfl, rfl⟩
  | succ fuel ih =>
    intro rest address s hle hc
    match rest with
    | [] => exact ⟨s, rfl, by simp [chunkFrames], hc, rfl, rfl⟩
    | b :: rest =>
      have hle' : rest.length + 1 ≤ fuel + 1 := by simpa using hle
      have hchunk : (padTo bytesPerWritePacket
          ((b :: rest).take (min (b :: rest).length bytesPerWritePacket))).length
            ≤ 250 := by
        rw [padTo_length]
        · decide
        · simp only [List.length_take, List.length_cons, bytesPerWritePacket]
          omega
      obtain ⟨s', h1, h2, h3, h4, h5⟩ := ih
        ((b :: rest).drop (min (b :: rest).length bytesPerWritePacket))
        (address + min (b :: rest).length bytesPerWritePacket)
        (emitPercent { s with frames := s.frames ++
          [frameBytes 0x57 address (padTo bytesPerWritePacket
            ((b :: rest).take (min (b :: rest).length bytesPerWritePacket)))] })
        (by simp only [List.length_drop, List.length_cons, bytesPerWritePacket]
            omega) hc
      refine ⟨s', ?_, ?_, h3, ?_, ?_⟩
      · simp only [writeChunksAux, writePacket]
        rw [sendRetry_ack tries ht dev 0x57 address _ hchunk s (hdev _)]
        rw [connect_of_connected s hc]
        simpa using h1
      · rw [h2]
        simp [chunkFrames, emitPercent, List.append_assoc]
      · rw [h4]
        rfl
      · rw [h5]
        rfl

theorem chunkFrames_map :
    ∀ (fuel : ℕ) (rest : List ℕ) (address : ℕ), rest.length ≤ fuel →
      chunkFrames fuel address rest =
        (List.range (ceilDiv rest.length 16)).map (fun i =>
          frameBytes 0x57 (address + 16 * i)
            (padTo 16 ((rest.drop (16 * i)).take 16))) := by
  intro fuel
  induction fuel with
  | zero =>
    intro rest address hle
    match rest, hle with
    | [], _ => simp [chunkFrames, ceilDiv]
  | succ fuel ih =>
    intro rest address hle
    match rest with
    | [] => simp [chunkFrames, ceilDiv]
    | b :: rest =>
      by_cases hsmall : (b :: rest).length ≤ 16
      · have hmin : min (b :: rest).length bytesPerWritePacket =
            (b :: rest).length := by
          simp only [bytesPerWritePacket]
          omega
        have hceil : ceilDiv (b :: rest).length 16 = 1 := by
          simp only [ceilDiv]
          simp only [List.length_cons] at hsmall ⊢
          omega
        rw [hceil]
        simp only [chunkFrames, hmin]
        rw [List.drop_length, List.take_length]
        have hr1 : List.range 1 = [0] := rfl
        rw [hr1]
        simp only [List.map_cons, List.map_nil, chunkFrames]
        rw [Nat.mul_zero, Nat.add_zero, List.drop_zero,
          List.take_of_length_le hsmall]
        simp only [bytesPerWritePacket]
      · have hmin : min (b :: rest).length bytesPerWritePacket = 16 := by
          simp only [bytesPerWritePacket]
          omega
        have hceil : ceilDiv (b :: rest).length 16 =
            ceilDiv ((b :: rest).drop 16).length 16 + 1 := by
          simp only [ceilDiv, List.length_drop]
          simp only [List.length_cons] at hsmall ⊢
          omega
        have hrec := ih ((b :: rest).drop 16) (address + 16)
          (by simp only [List.length_drop]; omega)
        simp only [chunkFrames, hmin]
        rw [hceil, List.range_succ_eq_map, List.map_cons, List.map_map, hrec]
        congr 1
        apply List.map_congr_left
        intro a ha
        simp only [Function.comp_apply, List.drop_drop, Nat.succ_eq_add_one]
        have h3 : address + 16 + 16 * a = address + 16 * (a + 1) := by ring
        have h4 : 16 + 16 * a = 16 * (a + 1) := by ring
        rw [h3, h4]

theorem erase_ack (dev : ℕ → Bool) (hdev : ∀ k, dev k = true) (address : ℕ)
    (numBytes : ℤ) (h1 : 1 ≤ numBytes) (s : St)
    (hp : ceilDiv numBytes.toNat pageSize ≤ 124) :
    ∃ s', erase dev address numBytes s = some (true, s') ∧
      s'.frames = s.frames ++
        [frameBytes 0x45 address [ceilDiv numBytes.toNat pageSize]] ∧
      s'.connected = true ∧
      s'.connectionEstablished = s.connectionEstablished := by
  have hp1 : 1 ≤ ceilDiv numBytes.toNat pageSize := by
    simp only [ceilDiv, pageSize]
    omega
  simp only [erase, erasePacket]
  rw [if_neg (by omega), if_neg (by omega)]
  rw [sendPacket_spec dev 0x45 address [ceilDiv numBytes.toNat pageSize]
    (by simp) (emitStatus AducStatus.ERASING s), hdev]
  refine ⟨_, rfl, ?_, ?_, ?_⟩
  · simp [emitStatus, emitPercent, connect_frames]
  · simp [emitStatus, emitPercent, connect_connected]
  · simp [emitStatus, emitPercent, connect_established]

theorem waitForDevice_init (firstByte : ℕ) :
    (waitForDevice firstByte St.init).connected = true ∧
    (waitForDevice firstByte St.init).connectionEstablished = true ∧
    (waitForDevice firstByte St.init).frames = [] := by
  by_cases h : firstByte = 0x07 ∨ firstByte = 0x80 <;>
    simp [waitForDevice, connect, St.init, emitStatus, emitPercent, h]

/-- C1 (corrected): the concrete checksum in the claim is wrong.  The
frame for Write(addr=0x00000010, data=[0xAA, 0xBB]) is
07 0E 07 57 00 00 00 10 AA BB followed by checksum 0x2D, not 0xB7:
the byte sum is 7 + 0x57 + 0x10 + 0xAA + 0xBB = 0x1D3 and
(-0x1D3) & 0xFF = 0x2D. -/
theorem C1_counterexample :
    frameBytes 0x57 0x10 [0xAA, 0xBB] =
      [0x07, 0x0E, 0x07, 0x57, 0x00, 0x00, 0x00, 0x10, 0xAA, 0xBB, 0x2D] ∧
    (0x2D : ℕ) ≠ 0xB7 := by
  constructor
  · rfl
  · decide

/-- C1 (amended): for every command, 32-bit address, and data with
|data| <= 250, the frame sent to the device consists, in order, of magic
0x07 0x0E, a length byte equal to 5 + |data|, the command byte, the 4
big-endian bytes of the remapped address, the data bytes, and the
checksum byte over length..data; Write(addr=0x00000010, data=[0xAA,0xBB])
emits exactly 07 0E 07 57 00 00 00 10 AA BB 2D. -/
theorem C1_frame_layout (dev : ℕ → Bool) (s : St) (command address : ℕ)
    (data : List ℕ) (hd : data.length ≤ 250) (ha : address < 2 ^ 32) :
    (∃ s', sendPacket dev command address data s = some (dev s.frames.length, s') ∧
      s'.frames = s.frames ++
        [0x07 :: 0x0E :: (((data.length + 5) :: command ::
            (toBytesBE4 (remapAddress address) ++ data)) ++
          [checksum ((data.length + 5) :: command ::
            (toBytesBE4 (remapAddress address) ++ data))])]) ∧
    frameBytes 0x57 0x10 [0xAA, 0xBB] =
      [0x07, 0x0E, 0x07, 0x57, 0x00, 0x00, 0x00, 0x10, 0xAA, 0xBB, 0x2D] := by
  refine ⟨⟨_, sendPacket_spec dev command address data hd s, rfl⟩, rfl⟩

/-- C1 witness: the amended frame-layout theorem applied to the
Write(0x10, [0xAA, 0xBB]) example on a fresh connection. -/
theorem C1_frame_layout_witness :
    (∃ s', sendPacket (fun _ => true) 0x57 0x10 [0xAA, 0xBB] St.init =
        some (true, s') ∧
      s'.frames =
        [0x07 :: 0x0E :: (((2 + 5) :: 0x57 ::
            (toBytesBE4 (remapAddress 0x10) ++ [0xAA, 0xBB])) ++
          [checksum ((2 + 5) :: 0x57 ::
            (toBytesBE4 (remapAddress 0x10) ++ [0xAA, 0xBB]))])]) ∧
    frameBytes 0x57 0x10 [0xAA, 0xBB] =
      [0x07, 0x0E, 0x07, 0x57, 0x00, 0x00, 0x00, 0x10, 0xAA, 0xBB, 0x2D] :=
  C1_frame_layout (fun _ => true) St.init 0x57 0x10 [0xAA, 0xBB]
    (by decide) (by decide)

/-- C2 (confirmed): the packet checksum equals
(256 - (sum(bytes) mod 256)) mod 256 over length, command, address and
data; that checksum plus the byte sum is a multiple of 256; and
checksum([0x05, 0x52, 0x00, 0x00, 0x00, 0x01]) = 0xA8. -/
theorem C2_checksum_spec (command address : ℕ) (d : List ℕ)
    (hd : d.length ≤ 250) :
    checksum ((d.length + 5) :: command :: (toBytesBE4 address ++ d)) =
      (256 - ((d.length + 5) :: command :: (toBytesBE4 address ++ d)).sum % 256)
        % 256 ∧
    (checksum ((d.length + 5) :: command :: (toBytesBE4 address ++ d)) +
      ((d.length + 5) :: command :: (toBytesBE4 address ++ d)).sum) % 256 = 0 ∧
    checksum [0x05, 0x52, 0x00, 0x00, 0x00, 0x01] = 0xA8 := by
  refine ⟨checksum_eq_mod _, ?_, by decide⟩
  rw [checksum_eq_mod]
  generalize ((d.length + 5) :: command :: (toBytesBE4 address ++ d)).sum = n
  omega

/-- C2 witness: the checksum theorem applied to command R at address 1
with no data, whose frame body is the source's own example
[0x05, 0x52, 0x00, 0x00, 0x00, 0x01]. -/
theorem C2_checksum_spec_witness :
    checksum [0x05, 0x52, 0x00, 0x00, 0x00, 0x01] = 0xA8 :=
  (C2_checksum_spec 0x52 1 [] (by decide)).2.2

set_option maxRecDepth 4000 in
/-- C3 (confirmed): the verify transform is the 3-bit left rotation
within 8 bits (for b < 256 it equals 8 * (b mod 32) + b div 32, the
arithmetic form of rotate-left-by-3), and it maps the single-bit bytes
[01 02 04 08 10 20 40 80] to [08 10 20 40 80 01 02 04]. -/
theorem C3_verify_shift (b : ℕ) (hb : b < 256) :
    verifyShift [b] = [8 * (b % 32) + b / 32] ∧
    verifyShift [0x01, 0x02, 0x04, 0x08, 0x10, 0x20, 0x40, 0x80] =
      [0x08, 0x10, 0x20, 0x40, 0x80, 0x01, 0x02, 0x04] := by
  have h : ∀ x < 256, verifyShift [x] = [8 * (x % 32) + x / 32] := by decide
  exact ⟨h b hb, by decide⟩

/-- C3 witness: the verify transform theorem at b = 0x9D
(rotl3(1001_1101) = 1110_1100 = 0xEC). -/
theorem C3_verify_shift_witness :
    verifyShift [0x9D] = [8 * (0x9D % 32) + 0x9D / 32] ∧
    verifyShift [0x01, 0x02, 0x04, 0x08, 0x10, 0x20, 0x40, 0x80] =
      [0x08, 0x10, 0x20, 0x40, 0x80, 0x01, 0x02, 0x04] :=
  C3_verify_shift 0x9D (by decide)

/-- C4 (corrected): the claim fails on the code.  The source subtracts
0x0080000 (six zeros), so remap(0x00800100) = 0x00780100, not the
0x00000100 the claim states; and remap(0x0100000) = 0x0080000, which is
not below 0x0080000 although 0x0100000 >= 0x0080000. -/
theorem C4_counterexample :
    remapAddress 0x00800100 = 0x00780100 ∧
    (0x00780100 : ℕ) ≠ 0x00000100 ∧
    0x0080000 ≤ (0x0100000 : ℕ) ∧
    ¬ remapAddress 0x0100000 < 0x0080000 := by
  refine ⟨by decide, by decide, by decide, by decide⟩

/-- C4 (amended): remap subtracts 0x0080000 exactly once when
addr >= 0x0080000 and is the identity below it; consequently the result
is below 0x0080000 only for addr < 0x0100000; in particular
remap(0x00800100) = 0x00780100 and remap(0x00000100) = 0x00000100. -/
theorem C4_remap_behavior (addr : ℕ) :
    (0x0080000 ≤ addr → remapAddress addr = addr - 0x0080000) ∧
    (addr < 0x0080000 → remapAddress addr = addr) ∧
    (0x0080000 ≤ addr → addr < 0x0100000 → remapAddress addr < 0x0080000) ∧
    remapAddress 0x00800100 = 0x00780100 ∧
    remapAddress 0x00000100 = 0x00000100 := by
  unfold remapAddress
  refine ⟨fun h => ?_, fun h => ?_, fun h h2 => ?_, by decide, by decide⟩
  · rw [if_pos h]
  · rw [if_neg (by omega)]
  · rw [if_pos h]; omega

/-- C4 witness: the amended remap theorem at 0x00800100, 0x100 and
0x0090000, discharging each bound. -/
theorem C4_remap_behavior_witness :
    remapAddress 0x00800100 = 0x00800100 - 0x0080000 ∧
    remapAddress 0x100 = 0x100 ∧
    remapAddress 0x0090000 < 0x0080000 :=
  ⟨(C4_remap_behavior 0x00800100).1 (by decide),
   (C4_remap_behavior 0x100).2.1 (by decide),
   (C4_remap_behavior 0x0090000).2.2.1 (by decide) (by decide)⟩

/-- C5 (code bug): massErase never touches the device.  _erasePacket
returns True for numPages = 0 without sending anything, so massErase
reports ERASING and ERASE_SUCCEEDED and returns True for every device,
transmitting no frame at all — contradicting its own docstring (and the
claim) that it erases the entire flash via an E command with payload 0. -/
theorem C5_massErase_sends_nothing (dev : ℕ → Bool) (s : St) :
    erasePacket dev 0 0 s = some (true, s) ∧
    ∃ s', massErase dev s = some (true, s') ∧
      s'.frames = s.frames ∧
      s'.statuses = s.statuses ++
        [AducStatus.ERASING, AducStatus.ERASE_SUCCEEDED] := by
  constructor
  · rfl
  · refine ⟨_, rfl, rfl, ?_⟩
    simp [emitStatus, emitPercent]

/-- C6 (confirmed): erase commands make a single attempt — exactly one
frame is sent and the device's answer (in particular a NAK) is returned
as-is — while write, verify and run packets are retried: against a
device that always NAKs, each of _writePacket, _verifyPacket and
_runPacket sends exactly tries frames before surfacing failure, and
with numTries = 3 and a device that NAKs the first two attempts and
ACKs the third, the write of one chunk emits exactly three frames,
succeeds, and reports no WRITE_FAILED. -/
theorem C6_retry_policy (dev : ℕ → Bool) (s : St) (address n : ℕ)
    (data : List ℕ) (hn1 : 1 ≤ n) (hn2 : n ≤ 124) (hd : data.length ≤ 250) :
    (∃ s', erasePacket dev address n s = some (dev s.frames.length, s') ∧
      s'.frames.length = s.frames.length + 1) ∧
    (∀ (tries : ℕ) (dev2 : ℕ → Bool), (∀ k, dev2 k = false) →
      (∃ s', writePacket tries dev2 address data s = some (false, s') ∧
        s'.frames.length = s.frames.length + tries) ∧
      (∃ s', verifyPacket tries dev2 address data s = some (false, s') ∧
        s'.frames.length = s.frames.length + tries) ∧
      (∃ s', runPacket tries dev2 address s = some (false, s') ∧
        s'.frames.length = s.frames.length + tries)) ∧
    (∃ s', write 3 (fun k => decide (k = 2)) 0x41 0x1000 (List.replicate 16 0x11)
        false false false true
        { St.init with connected := true, connectionEstablished := true } =
          some (true, s') ∧
      s'.frames.length = 3 ∧ AducStatus.WRITE_FAILED ∉ s'.statuses) := by
  refine ⟨?_, ?_, ?_⟩
  · unfold erasePacket
    rw [if_neg (by omega), sendPacket_spec dev 0x45 address [n] (by simp) s]
    exact ⟨_, rfl, by simp⟩
  · intro tries dev2 hdev2
    exact ⟨sendRetry_allNak dev2 hdev2 0x57 address data hd tries s,
      sendRetry_allNak dev2 hdev2 0x56 address data hd tries s,
      sendRetry_allNak dev2 hdev2 0x52 address [] (by simp) tries s⟩
  · refine ⟨_, rfl, by decide, by decide⟩

/-- C6 witness: the retry-policy theorem at a NAKing device, one page,
a one-byte payload. -/
theorem C6_retry_policy_witness :
    (∃ s', erasePacket (fun _ => false) 0x1000 1 St.init = some (false, s') ∧
      s'.frames.length = 1) ∧
    (∀ (tries : ℕ) (dev2 : ℕ → Bool), (∀ k, dev2 k = false) →
      (∃ s', writePacket tries dev2 0x1000 [0xAA] St.init = some (false, s') ∧
        s'.frames.length = St.init.frames.length + tries) ∧
      (∃ s', verifyPacket tries dev2 0x1000 [0xAA] St.init = some (false, s') ∧
        s'.frames.length = St.init.frames.length + tries) ∧
      (∃ s', runPacket tries dev2 0x1000 St.init = some (false, s') ∧
        s'.frames.length = St.init.frames.length + tries)) ∧
    (∃ s', write 3 (fun k => decide (k = 2)) 0x41 0x1000 (List.replicate 16 0x11)
        false false false true
        { St.init with connected := true, connectionEstablished := true } =
          some (true, s') ∧
      s'.frames.length = 3 ∧ AducStatus.WRITE_FAILED ∉ s'.statuses) :=
  C6_retry_policy (fun _ => false) St.init 0x1000 1 [0xAA]
    (by decide) (by decide) (by decide)

/-- C8 (code bug): against an all-ACK device an upload emits the
lifecycle statuses once each, in the order of spec section 4.8, but the
trace ends with VERIFY_SUCCEEDED: the DONE status declared by the
source's AducStatus enum is never emitted anywhere. -/
theorem C8_no_done_emitted :
    (uploadIhex 3 (fun _ => true) 0x41 [(0x1000, List.replicate 32 0xAB)]
        true false false none St.init).map (fun p => (p.1, p.2.statuses)) =
      some (true,
        [AducStatus.CONNECTING, AducStatus.WAITING_FOR_DEVICE,
         AducStatus.DEVICE_FOUND, AducStatus.ERASING, AducStatus.ERASE_SUCCEEDED,
         AducStatus.WRITING, AducStatus.WRITE_SUCCEEDED, AducStatus.VERIFYING,
         AducStatus.VERIFY_SUCCEEDED]) ∧
    ([AducStatus.CONNECTING, AducStatus.WAITING_FOR_DEVICE,
      AducStatus.DEVICE_FOUND, AducStatus.ERASING, AducStatus.ERASE_SUCCEEDED,
      AducStatus.WRITING, AducStatus.WRITE_SUCCEEDED, AducStatus.VERIFYING,
      AducStatus.VERIFY_SUCCEEDED] : List AducStatus).Nodup ∧
    AducStatus.DONE ∉
      [AducStatus.CONNECTING, AducStatus.WAITING_FOR_DEVICE,
       AducStatus.DEVICE_FOUND, AducStatus.ERASING, AducStatus.ERASE_SUCCEEDED,
       AducStatus.WRITING, AducStatus.WRITE_SUCCEEDED, AducStatus.VERIFYING,
       AducStatus.VERIFY_SUCCEEDED] := by
  refine ⟨by decide, by decide, by decide⟩

/-- C9 (code bug): the postRun success test is inverted.  The source
sets ret = (returncode != 0), so after a fully successful upload a
postRun command that exits 0 is reported POST_STEP_FAILED and the upload
returns False, while a nonzero exit code is reported
POST_STEP_SUCCEEDED and the upload returns True — the opposite of the
claim. -/
theorem C9_postrun_inverted :
    (uploadIhex 3 (fun _ => true) 0x41 [(0, List.replicate 16 1)]
        true false false (some 0) St.init).map (fun p => (p.1, p.2.statuses)) =
      some (false,
        [AducStatus.CONNECTING, AducStatus.WAITING_FOR_DEVICE,
         AducStatus.DEVICE_FOUND, AducStatus.ERASING, AducStatus.ERASE_SUCCEEDED,
         AducStatus.WRITING, AducStatus.WRITE_SUCCEEDED, AducStatus.VERIFYING,
         AducStatus.VERIFY_SUCCEEDED, AducStatus.POST_STEP,
         AducStatus.POST_STEP_FAILED]) ∧
    (uploadIhex 3 (fun _ => true) 0x41 [(0, List.replicate 16 1)]
        true false false (some 1) St.init).map (fun p => (p.1, p.2.statuses)) =
      some (true,
        [AducStatus.CONNECTING, AducStatus.WAITING_FOR_DEVICE,
         AducStatus.DEVICE_FOUND, AducStatus.ERASING, AducStatus.ERASE_SUCCEEDED,
         AducStatus.WRITING, AducStatus.WRITE_SUCCEEDED, AducStatus.VERIFYING,
         AducStatus.VERIFY_SUCCEEDED, AducStatus.POST_STEP,
         AducStatus.POST_STEP_SUCCEEDED]) := by
  refine ⟨by decide, by decide⟩

/-- C7 (confirmed): a direct write of L > 0 bytes (with the source's
pageSize 512 and write-packet size 16, an all-ACK device, at least one
retry allowed, and L small enough that the page count stays within the
erase command's 1..124 bound) sends exactly one Erase frame with
ceil(L/512) pages followed by exactly ceil(L/16) W frames at
address-sequential addresses with stride 16, each carrying the next
16-byte chunk, the final chunk padded with 0x00 bytes up to 16. -/
theorem C7_write_plan (tries : ℕ) (dev : ℕ → Bool) (firstByte address : ℕ)
    (data : List ℕ) (ht : 1 ≤ tries) (hdev : ∀ k, dev k = true)
    (hlen : 1 ≤ data.length) (hpages : ceilDiv data.length 512 ≤ 124) :
    ∃ s', write tries dev firstByte address data false false false false St.init =
        some (true, s') ∧
      s'.frames = frameBytes 0x45 address [ceilDiv data.length 512] ::
        (List.range (ceilDiv data.length 16)).map (fun i =>
          frameBytes 0x57 (address + 16 * i)
            (padTo 16 ((data.drop (16 * i)).take 16))) := by
  obtain ⟨hc0, he0, hf0⟩ := waitForDevice_init firstByte
  have hnat : ((data.length : ℤ)).toNat = data.length := by omega
  obtain ⟨s1, herase, hf1, hc1, he1⟩ := erase_ack dev hdev address
    ((data.length : ℤ)) (by omega) (waitForDevice firstByte St.init)
    (by rw [hnat]; exact hpages)
  obtain ⟨s3, hchunks, hf3, hc3, hs3, he3⟩ :=
    writeChunksAux_ack tries ht dev hdev data.length data address
      (emitPercent (emitStatus AducStatus.WRITING s1)) (le_refl _) hc1
  refine ⟨{ (disconnect (emitPercent (emitStatus AducStatus.WRITE_SUCCEEDED s3)))
    with connectionEstablished := false }, ?_, ?_⟩
  · simp only [write]
    rw [if_neg (by omega)]
    rw [show (!St.init.connectionEstablished) = true from rfl]
    simp
    rw [herase]
    simp
    rw [hchunks]
    simp
  · show (emitPercent (emitStatus AducStatus.WRITE_SUCCEEDED s3)).frames = _
    show s3.frames = _
    rw [hf3]
    show s1.frames ++ chunkFrames data.length address data = _
    rw [hf1, hf0]
    rw [chunkFrames_map data.length data address (le_refl _)]
    simp only [List.nil_append, List.cons_append, List.nil_append]
    rw [hnat]
    simp only [pageSize]

set_option maxRecDepth 40000 in
/-- C7 witness: the write-plan theorem at 1025 bytes at address 0x1000 —
ceil(1025/512) = 3 erase pages followed by ceil(1025/16) = 65 write
frames, the last chunk padded. -/
theorem C7_write_plan_witness :
    ceilDiv 1025 512 = 3 ∧ ceilDiv 1025 16 = 65 ∧
    ∃ s', write 3 (fun _ => true) 0x41 0x1000 (List.replicate 1025 0xAB)
        false false false false St.init = some (true, s') ∧
      s'.frames = frameBytes 0x45 0x1000
          [ceilDiv (List.replicate 1025 0xAB).length 512] ::
        (List.range (ceilDiv (List.replicate 1025 0xAB).length 16)).map (fun i =>
          frameBytes 0x57 (0x1000 + 16 * i)
            (padTo 16 (((List.replicate 1025 0xAB).drop (16 * i)).take 16))) :=
  ⟨by decide, by decide,
   C7_write_plan 3 (fun _ => true) 0x41 0x1000 (List.replicate 1025 0xAB)
     (by decide) (fun _ => rfl) (by simp) (by simp [ceilDiv])⟩

/-- C10 (confirmed): erase(address, numBytes) with numBytes < 1 returns
True at once, leaving the state — frames, statuses, percent callbacks,
connection flags — completely untouched. -/
theorem C10_erase_noop (dev : ℕ → Bool) (address : ℕ) (numBytes : ℤ) (s : St)
    (h : numBytes < 1) :
    erase dev address numBytes s = some (true, s) := by
  unfold erase
  rw [if_pos h]

/-- C10 witness: erase with numBytes = -5 on a fresh connection. -/
theorem C10_erase_noop_witness :
    erase (fun _ => true) 0x1000 (-5) St.init = some (true, St.init) :=
  C10_erase_noop (fun _ => true) 0x1000 (-5) St.init (by decide)

end Aduc
